import Mathlib

/-!
Verification development for the pagination / token-refresh core of
`src/sentry/integrations/github/client.py` and
`src/sentry/integrations/slack/notify_action.py` (a Python 2 codebase).

The Python functions are shallowly embedded as executable Lean functions.
Provider I/O (the HTTP collaborator) is modelled as an explicit function
argument; the embedded traversals additionally record the ordered trace of
requests they issue, so that request-count properties can be stated.
Python dictionaries are association lists, Python `None` is `Option.none`,
and `datetime` values are records of calendar fields.
-/

namespace Sentry

/-! ## Python string primitives (on `String`, via the underlying char list) -/

/-- Python `s.startswith(pre)`. -/
def pyStartsWith (s pre : String) : Bool :=
  pre.data.isPrefixOf s.data

/-- `s.data.length`, the length of a string in characters. -/
def strLen (s : String) : Nat :=
  s.data.length

/-- Drop the first `n` characters of a string. -/
def strDrop (s : String) (n : Nat) : String :=
  ⟨s.data.drop n⟩

/-- Split a char list at the first occurrence of the (non-empty) pattern
`pat`, returning the part before and the part after. -/
def findSplit (pat : List Char) : List Char → Option (List Char × List Char)
  | [] => if pat.isPrefixOf ([] : List Char) then some ([], []) else none
  | c :: rest =>
    if pat.isPrefixOf (c :: rest) then some ([], (c :: rest).drop pat.length)
    else (findSplit pat rest).map (fun p => (c :: p.1, p.2))

/-- Python `s.split(sep, 1)` restricted to the case the code exercises:
returns the parts before and after the first occurrence of `sep`.
Python raises `ValueError` on an empty separator; that unreachable case
(the callers pass the constant base URL `'https://api.github.com'`)
is modelled as `none`, as is the no-occurrence case (where the Python
two-target unpacking `_, rel = ...` would raise). -/
def pySplitOnce (s sep : String) : Option (String × String) :=
  if sep.data = [] then none
  else (findSplit sep.data s.data).map (fun p => (⟨p.1⟩, ⟨p.2⟩))

/-! ## Python dictionaries with string keys and values -/

/-- A Python dict with string keys and string values, as an association
list. Earlier entries shadow later ones for lookup. -/
def Dict : Type := List (String × String)

instance : DecidableEq Dict := inferInstanceAs (DecidableEq (List (String × String)))

/-- `d.get(k)` / `k in d`: first binding of `k`, if any. -/
def dget? (d : Dict) (k : String) : Option String :=
  match d with
  | [] => none
  | (k', v) :: rest => if k' = k then some v else dget? rest k

/-- `d[k] = v`: replace the binding of `k` (or append one). -/
def dset (d : Dict) (k v : String) : Dict :=
  match d with
  | [] => [(k, v)]
  | (k', v') :: rest => if k' = k then (k', v) :: rest else (k', v') :: dset rest k v

/-! ## Python 2 `datetime` values

Both `strptime` formats used by the source lack `%f`, so parsed datetimes
always carry `microsecond = 0`; `datetime.utcnow()` may carry any
microsecond value, hence the field is kept. -/

structure PyDatetime where
  year : Nat
  month : Nat
  day : Nat
  hour : Nat
  minute : Nat
  second : Nat
  microsecond : Nat
  deriving DecidableEq, Repr

/-- Python 2 `datetime` comparison: lexicographic on the fields. -/
def dt_lt (a b : PyDatetime) : Bool :=
  if a.year ≠ b.year then a.year < b.year
  else if a.month ≠ b.month then a.month < b.month
  else if a.day ≠ b.day then a.day < b.day
  else if a.hour ≠ b.hour then a.hour < b.hour
  else if a.minute ≠ b.minute then a.minute < b.minute
  else if a.second ≠ b.second then a.second < b.second
  else a.microsecond < b.microsecond

/-- The field tuple of a datetime, in comparison order. -/
def dtFields (a : PyDatetime) : List Nat :=
  [a.year, a.month, a.day, a.hour, a.minute, a.second, a.microsecond]

/-- `calendar` leap-year rule used by `datetime`. -/
def is_leap (y : Nat) : Bool :=
  y % 4 = 0 && (y % 100 ≠ 0 || y % 400 = 0)

/-- Days in a month, as validated by the `datetime` constructor. -/
def days_in_month (y m : Nat) : Nat :=
  if m = 2 then (if is_leap y then 29 else 28)
  else if m = 4 ∨ m = 6 ∨ m = 9 ∨ m = 11 then 30
  else 31

/-! ### `strptime` for the two fixed formats of the source

CPython's `_strptime` matches `%Y` as exactly four digits and
`%m`, `%d`, `%H`, `%M`, `%S` as one or two digits (greedy, the following
literal separators are non-digits), then the `datetime` constructor
validates the ranges (`MINYEAR = 1`, month 1-12, day against the month
length, hour 0-23, minute/second 0-59). -/

/-- A decimal digit character (the regex class `\d` over ASCII). -/
def isDig (c : Char) : Bool := 48 ≤ c.toNat && c.toNat ≤ 57

/-- Numeric value of a digit character. -/
def dval (c : Char) : Nat := c.toNat - 48

/-- Parse exactly four digits (`%Y`). -/
def parse4d : List Char → Option (Nat × List Char)
  | c1 :: c2 :: c3 :: c4 :: rest =>
    if isDig c1 && isDig c2 && isDig c3 && isDig c4 then
      some (((dval c1 * 10 + dval c2) * 10 + dval c3) * 10 + dval c4, rest)
    else none
  | _ => none

/-- Parse one or two digits, greedily (`%m`, `%d`, `%H`, `%M`, `%S`). -/
def parse2d : List Char → Option (Nat × List Char)
  | [] => none
  | [c1] => if isDig c1 then some (dval c1, []) else none
  | c1 :: c2 :: rest =>
    if isDig c1 && isDig c2 then some (dval c1 * 10 + dval c2, rest)
    else if isDig c1 then some (dval c1, c2 :: rest)
    else none

/-- Consume one expected literal character. -/
def expect (c : Char) : List Char → Option (List Char)
  | [] => none
  | d :: rest => if d = c then some rest else none

/-- Parser for the shared `'%Y-%m-%dT%H:%M:%S'` core of both formats,
returning the datetime and the unconsumed remainder; `none` models the
`ValueError` raised on a failed regex match or failed constructor range
check. -/
def strptime_core (cs : List Char) : Option (PyDatetime × List Char) :=
  match parse4d cs with
  | none => none
  | some (y, cs) =>
    if y < 1 then none else
    match expect '-' cs with
    | none => none
    | some cs =>
      match parse2d cs with
      | none => none
      | some (m, cs) =>
        if m < 1 ∨ 12 < m then none else
        match expect '-' cs with
        | none => none
        | some cs =>
          match parse2d cs with
          | none => none
          | some (d, cs) =>
            if d < 1 ∨ days_in_month y m < d then none else
            match expect 'T' cs with
            | none => none
            | some cs =>
              match parse2d cs with
              | none => none
              | some (hh, cs) =>
                if 23 < hh then none else
                match expect ':' cs with
                | none => none
                | some cs =>
                  match parse2d cs with
                  | none => none
                  | some (mi, cs) =>
                    if 59 < mi then none else
                    match expect ':' cs with
                    | none => none
                    | some cs =>
                      match parse2d cs with
                      | none => none
                      | some (ss, cs) =>
                        if 59 < ss then none else
                        some (⟨y, m, d, hh, mi, ss, 0⟩, cs)

/-- `datetime.strptime(s, '%Y-%m-%dT%H:%M:%S')` (`None` models `ValueError`;
Python rejects unconverted trailing data). -/
def strptime_plain (s : String) : Option PyDatetime :=
  match strptime_core s.data with
  | some (dt, rest) => if rest = [] then some dt else none
  | none => none

/-- `datetime.strptime(s, '%Y-%m-%dT%H:%M:%SZ')`: the core followed by the
literal `'Z'` and then the end of the string. -/
def strptime_z (s : String) : Option PyDatetime :=
  match strptime_core s.data with
  | some (dt, rest) => if rest = ['Z'] then some dt else none
  | none => none

/-- Field ranges guaranteed for any `strptime`-produced datetime (the
regex field widths plus the `datetime` constructor checks). -/
def ValidDt (dt : PyDatetime) : Prop :=
  1 ≤ dt.year ∧ dt.year ≤ 9999 ∧ 1 ≤ dt.month ∧ dt.month ≤ 12 ∧ 1 ≤ dt.day ∧
  dt.day ≤ days_in_month dt.year dt.month ∧ dt.hour ≤ 23 ∧ dt.minute ≤ 59 ∧
  dt.second ≤ 59 ∧ dt.microsecond = 0

/-- The digit character for `d < 10`. -/
def digCh (d : Nat) : Char := Char.ofNat (48 + d)

/-- Two-digit zero-padded decimal. -/
def pad2 (n : Nat) : List Char := [digCh (n / 10), digCh (n % 10)]

/-- Four-digit zero-padded decimal. -/
def pad4 (n : Nat) : List Char :=
  [digCh (n / 1000), digCh (n / 100 % 10), digCh (n / 10 % 10), digCh (n % 10)]

/-- Six-digit zero-padded decimal (for a nonzero microsecond field). -/
def pad6 (n : Nat) : List Char :=
  [digCh (n / 100000), digCh (n / 10000 % 10), digCh (n / 1000 % 10),
   digCh (n / 100 % 10), digCh (n / 10 % 10), digCh (n % 10)]

/-- `datetime.isoformat()`: `YYYY-MM-DDTHH:MM:SS`, with `.ffffff` appended
only when the microsecond field is nonzero. -/
def isoformat (dt : PyDatetime) : String :=
  ⟨pad4 dt.year ++ '-' :: pad2 dt.month ++ '-' :: pad2 dt.day ++
    'T' :: pad2 dt.hour ++ ':' :: pad2 dt.minute ++ ':' :: pad2 dt.second ++
    (if dt.microsecond = 0 then [] else '.' :: pad6 dt.microsecond)⟩

/-! ## GitHub client (`src/sentry/integrations/github/client.py`)

`ApiClient.get` is the external HTTP collaborator; it is modelled as a
function from the GET path to the decoded response. Repository items are
opaque and modelled as `Nat`. -/

/-- A decoded GitHub response, with the fields the core reads: the parsed
`Link`-header relation map (`response.rel`; a response without the
attribute is the empty map), the raw `Link` header
(`response.headers.get('Link')`), and the `'repositories'` collection. -/
structure GHResponse where
  rel : List (String × String)
  linkHeader : Option String
  repositories : List Nat

/-- The diagnostic emitted (printed to stderr via the `_BAD_NEXT_REL`
template) when a `rel="next"` URL does not start with the base URL: it
carries the raw `Link` header value, the offending URL and the expected
base URL. -/
structure BadNextRel where
  link_header : Option String
  next_url : String
  base_url : String
  deriving DecidableEq

/-- `_MAX_ITERATIONS` (both files define it as 100). -/
def MAX_ITERATIONS : Nat := 100

/-- `GitHubClientMixin.base_url`. -/
def ghBase : String := "https://api.github.com"

/-- The path of the first repository-listing request (its
`per_page=100` query parameter lives in the HTTP collaborator call). -/
def reposPath : String := "/installation/repositories"

/-- `_get_rel_next(base_url, response)`: the relative next-page locator,
paired with the diagnostic emitted (if any). -/
def get_rel_next (base_url : String) (response : GHResponse) :
    Option String × Option BadNextRel :=
  match dget? response.rel "next" with
  | none => (none, none)
  | some next_url =>
    if pyStartsWith next_url base_url then
      match pySplitOnce next_url base_url with
      | some (_, relative_url) => (some relative_url, none)
      | none => (none, none)
    else
      (none, some ⟨response.linkHeader, next_url, base_url⟩)

/-- The bounded `for _ in range(_MAX_ITERATIONS)` loop of
`_paging_get_repositories`, threading the accumulated repositories and
the trace of GET paths issued. -/
def paging_loop (base_url : String) (get : String → GHResponse) :
    Nat → Option String → List Nat → List String → List Nat × List String
  | 0, _, acc, tr => (acc, tr)
  | _ + 1, none, acc, tr => (acc, tr)
  | fuel + 1, some next_url, acc, tr =>
    let response := get next_url
    paging_loop base_url get fuel (get_rel_next base_url response).1
      (acc ++ response.repositories) (tr ++ [next_url])

/-- The result of `_paging_get_repositories`, together with the ordered
trace of GET paths issued. -/
structure GHRun where
  repositories : List Nat
  trace : List String

/-- `_paging_get_repositories(client_mixin)`: one initial request, then
the capped loop following `rel="next"` locators. -/
def paging_get_repositories (base_url : String) (get : String → GHResponse) : GHRun :=
  let response := get reposPath
  let all_repositories := ([] : List Nat) ++ response.repositories
  let next_url := (get_rel_next base_url response).1
  let out := paging_loop base_url get MAX_ITERATIONS next_url all_repositories [reposPath]
  ⟨out.1, out.2⟩

/-! ### `GitHubClientMixin.get_token` -/

/-- The two metadata keys of the integration record that `get_token`
reads and writes. -/
structure TokenMetadata where
  access_token : Option String
  expires_at : Option String
  deriving DecidableEq

/-- Observable outcome of one `get_token` call: the returned token, the
metadata after the call, how many `create_token` (minting) calls were
made, and whether `integration.save()` ran. -/
structure TokenRun where
  returned : String
  metadata : TokenMetadata
  mint_calls : Nat
  saved : Bool
  deriving DecidableEq

/-- Python truthiness test `not token` for an optional string. -/
def py_falsy : Option String → Bool
  | none => true
  | some s => s == ""

/-- `expires_at < datetime.utcnow()` in Python 2.7: `datetime`'s rich
comparison refuses a non-datetime comparand (it raises `TypeError`
instead of falling back to the None-is-smallest default scheme, and
`None` has no `timetuple` attribute that would yield `NotImplemented`),
so comparing an absent expiry raises. -/
def py_lt_datetime : Option PyDatetime → PyDatetime → Except String Bool
  | none, _ => .error "TypeError"
  | some e, now => .ok (dt_lt e now)

/-- The condition `not token or expires_at < datetime.utcnow() or
force_refresh`, evaluated left to right with Python's short-circuiting:
a falsy token decides the refresh before the comparison runs; otherwise
the comparison is evaluated (and may raise) before `force_refresh` is
consulted. -/
def needs_refresh (token : Option String) (expires_at : Option PyDatetime)
    (now : PyDatetime) (force_refresh : Bool) : Except String Bool :=
  if py_falsy token then .ok true
  else
    match py_lt_datetime expires_at now with
    | .error e => .error e
    | .ok b => .ok (b || force_refresh)

/-- The read path of `get_token`: `metadata.get('expires_at')`, parsed
with `'%Y-%m-%dT%H:%M:%S'` when present (`ValueError` on a malformed
string is `Except.error`). -/
def parse_expires (stored : Option String) : Except String (Option PyDatetime) :=
  match stored with
  | none => .ok none
  | some s =>
    match strptime_plain s with
    | some dt => .ok (some dt)
    | none => .error "ValueError"

/-- `GitHubClientMixin.get_token(force_refresh)`. The minting collaborator
`create_token` is modelled by its response `mint = (token, expires_at)`;
`now` is `datetime.utcnow()`. `Except.error` models an uncaught
exception: `ValueError` from `strptime`, or `TypeError` from comparing
an absent expiry against `now`. -/
def get_token (metadata : TokenMetadata) (now : PyDatetime) (force_refresh : Bool)
    (mint : String × String) : Except String TokenRun :=
  let token := metadata.access_token
  match parse_expires metadata.expires_at with
  | .error e => .error e
  | .ok expires_at =>
    match needs_refresh token expires_at now force_refresh with
    | .error e => .error e
    | .ok needs =>
      if needs then
        match strptime_z mint.2 with
        | none => .error "ValueError"
        | some dt =>
          .ok { returned := mint.1
                metadata := { access_token := some mint.1, expires_at := some (isoformat dt) }
                mint_calls := 1
                saved := true }
      else
        .ok { returned := token.getD "", metadata := metadata, mint_calls := 0, saved := false }

/-! ## Slack lookup (`src/sentry/integrations/slack/notify_action.py`)

`session.get(url, params=...)` is modelled as a function from the params
dict to the decoded response (the URL is fixed per resource kind, so each
kind carries its own provider function). Because
`_find_matching_conversation` deep-copies its `original_params` and then
mutates the copy in place, params dicts live in a small explicit heap
(`Nat`-addressed references), so that aliasing behaviour is represented
rather than assumed. -/

/-- One entry of a Slack list response: the fields the loop reads. -/
structure SlackItem where
  name : String
  id : String
  deriving DecidableEq

/-- A decoded Slack list response: `ok`, the optional `error` string
(only logged), the resource collection (`channels` / `groups` /
`members`), and `response_metadata.next_cursor`. A response whose `ok`
key is missing or falsy has `ok = false`. -/
structure SlackResponse where
  ok : Bool
  error : Option String
  items : List SlackItem
  next_cursor : Option String

/-- `MEMBER_PREFIX` in the source. -/
def MEMBER_MARK : String := "@"

/-- `CHANNEL_PREFIX` in the source. -/
def CHANNEL_MARK : String := "#"

/-- The inner scan `for c in resp[resource_type]: if c['name'] == name:
return c['id'], ...` — first item whose name equals `name` exactly. -/
def find_name (name : String) : List SlackItem → Option String
  | [] => none
  | c :: rest => if c.name = name then some c.id else find_name name rest

/-- A heap of Python dicts: references are `Nat`, `hset` writes one cell. -/
def hset (h : Nat → Dict) (r : Nat) (d : Dict) : Nat → Dict :=
  fun r' => if r' = r then d else h r'

/-- State observable after the loop of `_find_matching_conversation`:
the matched id (if any), the `did_error` flag, the heap after the call,
and the ordered trace of params dicts sent to the provider. -/
structure LoopOut where
  found : Option String
  did_error : Bool
  heap : Nat → Dict
  trace : List Dict

/-- The `for _ in range(_MAX_ITERATIONS)` loop of
`_find_matching_conversation`. The loop state is the `next_params`
variable: either `None` or the reference to the deep copy, whose
`'cursor'` entry is updated in place between pages. -/
def slack_loop (get : Dict → SlackResponse) (name : String) :
    Nat → Option Nat → (Nat → Dict) → List Dict → LoopOut
  | 0, _, h, tr => ⟨none, false, h, tr⟩
  | _ + 1, none, h, tr => ⟨none, false, h, tr⟩
  | fuel + 1, some ref, h, tr =>
    let params := h ref
    let resp := get params
    let tr1 := tr ++ [params]
    if resp.ok = false then ⟨none, true, h, tr1⟩
    else
      match find_name name resp.items with
      | some cid => ⟨some cid, false, h, tr1⟩
      | none =>
        match resp.next_cursor with
        | none => slack_loop get name fuel none h tr1
        | some next_cursor =>
          slack_loop get name fuel (some ref)
            (hset h ref (dset (h ref) "cursor" next_cursor)) tr1

/-- Result of `_find_matching_conversation`, with the post-call heap, the
next free reference, and the request trace. -/
structure SlackRun where
  found : Option String
  did_error : Bool
  heap : Nat → Dict
  nextFree : Nat
  trace : List Dict

/-- `_find_matching_conversation(logger, msg, session, url, resource_type,
name, original_params)`: deep-copy the caller's params into a fresh
reference, then run the capped cursor loop. -/
def find_matching_conversation (get : Dict → SlackResponse) (name : String)
    (heap : Nat → Dict) (nextFree : Nat) (origRef : Nat) : SlackRun :=
  let copyRef := nextFree
  let h1 := hset heap copyRef (heap origRef)
  let out := slack_loop get name MAX_ITERATIONS (some copyRef) h1 []
  ⟨out.found, out.did_error, out.heap, copyRef + 1, out.trace⟩

/-- Result of `SlackNotifyServiceAction.get_channel_id`, with the request
trace of each resource kind. -/
structure ChannelIdRun where
  result : Option (String × String)
  chTrace : List Dict
  grTrace : List Dict
  memTrace : List Dict
  heap : Nat → Dict
  nextFree : Nat

/-- `SlackNotifyServiceAction.get_channel_id(integration_id, name)` after
the integration fetch: the `channels_payload` dict lives at `paramsRef`
and is passed to the channel, group and member traversals in that order.
`if did_error: return None` aborts; `if channel_id:` (Python truthiness)
returns the prefixed match. -/
def get_channel_id (getCh getGr getMem : Dict → SlackResponse) (name : String)
    (heap : Nat → Dict) (nextFree : Nat) (paramsRef : Nat) : ChannelIdRun :=
  let r1 := find_matching_conversation getCh name heap nextFree paramsRef
  if r1.did_error then ⟨none, r1.trace, [], [], r1.heap, r1.nextFree⟩
  else if py_falsy r1.found = false then
    ⟨some (CHANNEL_MARK, r1.found.getD ""), r1.trace, [], [], r1.heap, r1.nextFree⟩
  else
    let r2 := find_matching_conversation getGr name r1.heap r1.nextFree paramsRef
    if r2.did_error then ⟨none, r1.trace, r2.trace, [], r2.heap, r2.nextFree⟩
    else if py_falsy r2.found = false then
      ⟨some (CHANNEL_MARK, r2.found.getD ""), r1.trace, r2.trace, [], r2.heap, r2.nextFree⟩
    else
      let r3 := find_matching_conversation getMem name r2.heap r2.nextFree paramsRef
      if r3.did_error then ⟨none, r1.trace, r2.trace, r3.trace, r3.heap, r3.nextFree⟩
      else if py_falsy r3.found = false then
        ⟨some (MEMBER_MARK, r3.found.getD ""), r1.trace, r2.trace, r3.trace, r3.heap, r3.nextFree⟩
      else ⟨none, r1.trace, r2.trace, r3.trace, r3.heap, r3.nextFree⟩

/-! ## Mock providers

Concrete provider functions used to instantiate the universally
quantified theorems and to exhibit counterexamples: a GitHub provider
that always advertises a further page, a finite GitHub page chain, and
Slack providers driven by the `'cursor'` parameter. -/

/-- A GitHub page that always advertises `rel="next"` within the base
URL (an "infinite pagination" provider serves it for every path). -/
def infPage : GHResponse :=
  { rel := [("next", "https://api.github.com/x")]
    linkHeader := some "<https://api.github.com/x>; rel=\"next\""
    repositories := [7] }

/-- Path of page `i ≥ 1` in the finite GitHub chain: `/xx…x` (`i` x's). -/
def chainPath (i : Nat) : String := ⟨'/' :: List.replicate i 'x'⟩

/-- Page `i` of a GitHub chain of `n` pages: one item (the page index),
and a valid next locator unless it is the last page. -/
def chainPage (n i : Nat) : GHResponse :=
  { rel := if i + 1 < n then [("next", ghBase ++ chainPath (i + 1))] else []
    linkHeader := none
    repositories := [i] }

/-- Provider serving the finite GitHub chain: the initial listing path is
page 0, and `/xx…x` with `i` x's is page `i`. -/
def chainGet (n : Nat) (path : String) : GHResponse :=
  if path = reposPath then chainPage n 0 else chainPage n (strLen path - 1)

/-- Cursor string of page `i` in the Slack mocks: `i` repetitions of `x`
(so the page index is recoverable as the cursor's length). -/
def cursorOf (i : Nat) : String := ⟨List.replicate i 'x'⟩

/-- Page index encoded by a params dict in the Slack mocks: 0 when no
`'cursor'` entry is present, else the cursor's length. -/
def idxAt (d : Dict) : Nat :=
  match dget? d "cursor" with
  | none => 0
  | some c => strLen c

/-- Slack provider serving `pages (idxAt params)`: the page addressed by
the request's cursor parameter. -/
def seqProvider (pages : Nat → SlackResponse) (params : Dict) : SlackResponse :=
  pages (idxAt params)

/-- An `ok` Slack page with the given items and next cursor. -/
def okPage (items : List SlackItem) (next_cursor : Option String) : SlackResponse :=
  { ok := true, error := none, items := items, next_cursor := next_cursor }

/-- An error-flagged Slack page (`ok: false`), e.g. `rate_limited`. -/
def errPage : SlackResponse :=
  { ok := false, error := some "rate_limited", items := [], next_cursor := none }

/-- The all-empty heap of params dicts. -/
def emptyHeap : Nat → Dict := fun _ => ([] : Dict)

/-! ## Helper lemmas -/

@[simp] theorem dget?_dset (d : Dict) (k v : String) : dget? (dset d k v) k = some v := by
  induction d with
  | nil => simp [dget?, dset]
  | cons hd tl ih =>
    obtain ⟨k', v'⟩ := hd
    by_cases h : k' = k <;> simp [dget?, dset, h, ih]

theorem isPrefixOf_append (l t : List Char) : l.isPrefixOf (l ++ t) = true := by
  induction l with
  | nil => cases t <;> rfl
  | cons a as ih => simp [List.isPrefixOf, ih]

theorem findSplit_of_pre (pat s : List Char) (h : pat.isPrefixOf s = true) :
    findSplit pat s = some ([], s.drop pat.length) := by
  cases s <;> simp [findSplit, h]

theorem data_ne_nil (B : String) (hB : B ≠ "") : B.data ≠ [] := by
  intro h
  apply hB
  cases B with
  | mk l =>
    simp only [String.data] at h
    rw [h]

theorem pySplitOnce_of_pre (U B : String) (hB : B ≠ "") (h : pyStartsWith U B = true) :
    pySplitOnce U B = some ("", strDrop U (strLen B)) := by
  simp only [pyStartsWith] at h
  simp only [pySplitOnce, if_neg (data_ne_nil B hB), findSplit_of_pre B.data U.data h,
    Option.map_some']
  rfl

theorem pyStartsWith_append (B u : String) : pyStartsWith (B ++ u) B = true :=
  isPrefixOf_append B.data u.data

theorem strDrop_append (B u : String) : strDrop (B ++ u) (strLen B) = u := by
  show String.mk ((B.data ++ u.data).drop B.data.length) = u
  rw [List.drop_left]

/-! ## C4: next-link extraction and origin validation -/

/-- C4: for every (non-empty) base URL `B` and every response, if the
relation map has no `"next"` entry then `_get_rel_next` returns `None`
with no diagnostic; if the `"next"` URL `U` starts with `B` it returns
`U` with the prefix `B` stripped; otherwise it returns `None` and emits a
diagnostic carrying the raw `Link` header value, the offending URL and
the expected base. -/
theorem C4_get_rel_next (B : String) (resp : GHResponse) (hB : B ≠ "") :
    (dget? resp.rel "next" = none → get_rel_next B resp = (none, none)) ∧
    (∀ U, dget? resp.rel "next" = some U → pyStartsWith U B = true →
      get_rel_next B resp = (some (strDrop U (strLen B)), none)) ∧
    (∀ U, dget? resp.rel "next" = some U → pyStartsWith U B = false →
      get_rel_next B resp = (none, some ⟨resp.linkHeader, U, B⟩)) := by
  refine ⟨fun h => by simp [get_rel_next, h], fun U hU hpre => ?_, fun U hU hpre => ?_⟩
  · simp [get_rel_next, hU, hpre, pySplitOnce_of_pre U B hB hpre]
  · simp [get_rel_next, hU, hpre]

/-- Witness for C4: a concrete in-origin next link is stripped to its
relative path, with no diagnostic. -/
theorem C4_witness :
    get_rel_next ghBase
        ⟨[("next", "https://api.github.com/installation/repositories?page=2")], none, []⟩
      = (some "/installation/repositories?page=2", none) := by
  rw [(C4_get_rel_next ghBase
        ⟨[("next", "https://api.github.com/installation/repositories?page=2")], none, []⟩
        (by decide)).2.1
      "https://api.github.com/installation/repositories?page=2" rfl (by decide)]
  rfl

/-! ## C1: hard iteration caps -/

theorem paging_loop_trace_le (B : String) (get : String → GHResponse) :
    ∀ (fuel : Nat) (next : Option String) (acc : List Nat) (tr : List String),
      (paging_loop B get fuel next acc tr).2.length ≤ tr.length + fuel := by
  intro fuel
  induction fuel with
  | zero => intro next acc tr; simp [paging_loop]
  | succ n ih =>
    intro next acc tr
    cases next with
    | none => simp [paging_loop]
    | some u =>
      calc (paging_loop B get (n + 1) (some u) acc tr).2.length
          ≤ (tr ++ [u]).length + n := ih _ _ _
        _ ≤ tr.length + (n + 1) := by simp; omega

theorem slack_loop_trace_le (get : Dict → SlackResponse) (name : String) :
    ∀ (fuel : Nat) (st : Option Nat) (h : Nat → Dict) (tr : List Dict),
      (slack_loop get name fuel st h tr).trace.length ≤ tr.length + fuel := by
  intro fuel
  induction fuel with
  | zero => intro st h tr; simp [slack_loop]
  | succ n ih =>
    intro st h tr
    cases st with
    | none => simp [slack_loop]
    | some ref =>
      cases hok : (get (h ref)).ok with
      | false => simp [slack_loop, hok]
      | true =>
        cases hf : find_name name (get (h ref)).items with
        | some cid => simp [slack_loop, hok, hf]
        | none =>
          cases hc : (get (h ref)).next_cursor with
          | none =>
            calc (slack_loop get name (n + 1) (some ref) h tr).trace.length
                = (slack_loop get name n none h (tr ++ [h ref])).trace.length := by
                  simp [slack_loop, hok, hf, hc]
              _ ≤ (tr ++ [h ref]).length + n := ih _ _ _
              _ ≤ tr.length + (n + 1) := by simp; omega
          | some cur =>
            calc (slack_loop get name (n + 1) (some ref) h tr).trace.length
                = (slack_loop get name n (some ref)
                    (hset h ref (dset (h ref) "cursor" cur)) (tr ++ [h ref])).trace.length := by
                  simp [slack_loop, hok, hf, hc]
              _ ≤ (tr ++ [h ref]).length + n := ih _ _ _
              _ ≤ tr.length + (n + 1) := by simp; omega

/-- C1 (amended): the Slack traversal `_find_matching_conversation` issues
at most 100 page requests; the GitHub enumeration
`_paging_get_repositories` issues at most 101 (one initial fetch plus at
most 100 in the capped loop). Reaching the cap stops the loop and the
accumulated result is returned; nothing is raised (the embedded
functions are total). -/
theorem C1_iteration_caps :
    (∀ (B : String) (get : String → GHResponse),
      (paging_get_repositories B get).trace.length ≤ 101) ∧
    (∀ (get : Dict → SlackResponse) (name : String) (h : Nat → Dict) (nf orig : Nat),
      (find_matching_conversation get name h nf orig).trace.length ≤ 100) := by
  constructor
  · intro B get
    have := paging_loop_trace_le B get MAX_ITERATIONS
      (get_rel_next B (get reposPath)).1 (([] : List Nat) ++ (get reposPath).repositories)
      [reposPath]
    simpa [paging_get_repositories, MAX_ITERATIONS] using this
  · intro get name h nf orig
    have := slack_loop_trace_le get name MAX_ITERATIONS (some nf)
      (hset h nf (h orig)) []
    simpa [find_matching_conversation, MAX_ITERATIONS] using this

/-- Counterexample to C1 as stated: a GitHub provider whose every page
advertises a further in-origin next locator makes
`_paging_get_repositories` issue 101 page requests — more than 100. -/
theorem C1_counterexample :
    dget? infPage.rel "next" = some (ghBase ++ "/x") ∧
    (paging_get_repositories ghBase (fun _ => infPage)).trace.length = 101 ∧
    ¬ (paging_get_repositories ghBase (fun _ => infPage)).trace.length ≤ 100 := by
  have h : (paging_get_repositories ghBase (fun _ => infPage)).trace.length = 101 := by rfl
  exact ⟨rfl, h, by rw [h]; omega⟩

/-! ## C5: page-chain concatenation -/

theorem get_rel_next_append (B u : String) (resp : GHResponse) (hB : B ≠ "")
    (h : dget? resp.rel "next" = some (B ++ u)) : (get_rel_next B resp).1 = some u := by
  simp [get_rel_next, h, pyStartsWith_append,
    pySplitOnce_of_pre (B ++ u) B hB (pyStartsWith_append B u), strDrop_append]

theorem get_rel_next_none (B : String) (resp : GHResponse)
    (h : dget? resp.rel "next" = none) : (get_rel_next B resp).1 = none := by
  simp [get_rel_next, h]

theorem paging_loop_none (B : String) (get : String → GHResponse) (fuel : Nat)
    (acc : List Nat) (tr : List String) :
    paging_loop B get fuel none acc tr = (acc, tr) := by
  cases fuel <;> rfl

theorem paging_loop_chain (get : String → GHResponse) (pages : Nat → GHResponse)
    (url : Nat → String) (N : Nat)
    (hget : ∀ i, 1 ≤ i → i < N → get (url i) = pages i)
    (hrel : ∀ i, i + 1 < N → dget? (pages i).rel "next" = some (ghBase ++ url (i + 1)))
    (hlast : dget? (pages (N - 1)).rel "next" = none) :
    ∀ (fuel j : Nat) (acc : List Nat) (tr : List String), 1 ≤ j → j < N → N - j ≤ fuel →
      (paging_loop ghBase get fuel (some (url j)) acc tr).1
        = acc ++ (List.range' j (N - j)).flatMap (fun i => (pages i).repositories) := by
  intro fuel
  induction fuel with
  | zero => intro j acc tr h1 h2 h3; omega
  | succ n ih =>
    intro j acc tr h1 h2 h3
    have hgj : get (url j) = pages j := hget j h1 h2
    by_cases hjN : j + 1 < N
    · have hnext : (get_rel_next ghBase (pages j)).1 = some (url (j + 1)) :=
        get_rel_next_append ghBase (url (j + 1)) (pages j) (by decide) (hrel j hjN)
      have hstep :
          (paging_loop ghBase get (n + 1) (some (url j)) acc tr).1
            = (paging_loop ghBase get n (some (url (j + 1)))
                (acc ++ (pages j).repositories) (tr ++ [url j])).1 := by
        simp [paging_loop, hgj, hnext]
      rw [hstep, ih (j + 1) _ _ (by omega) hjN (by omega)]
      have hsplit : List.range' j (N - j) = j :: List.range' (j + 1) (N - (j + 1)) := by
        have h4 : N - j = (N - (j + 1)) + 1 := by omega
        rw [h4, List.range'_succ]
      rw [hsplit, List.flatMap_cons, List.append_assoc]
    · have hj : j = N - 1 := by omega
      have hnext : (get_rel_next ghBase (pages j)).1 = none := by
        rw [hj]; exact get_rel_next_none ghBase (pages (N - 1)) hlast
      have hone : N - j = 1 := by omega
      have hstep :
          (paging_loop ghBase get (n + 1) (some (url j)) acc tr).1
            = (paging_loop ghBase get n none
                (acc ++ (pages j).repositories) (tr ++ [url j])).1 := by
        simp [paging_loop, hgj, hnext]
      rw [hstep, paging_loop_none, hone]
      simp [List.range'_succ]

/-- C5 (amended): for every next-link chain of `N ≤ 101` pages (one
initial fetch plus at most 100 capped loop fetches) whose last page has
no next link, `_paging_get_repositories` returns exactly the
concatenation of every page's `'repositories'` items, preserving page
order and intra-page order. -/
theorem C5_chain_concatenation (get : String → GHResponse) (pages : Nat → GHResponse)
    (url : Nat → String) (N : Nat) (hN1 : 1 ≤ N) (hN : N ≤ 101)
    (h0 : get reposPath = pages 0)
    (hget : ∀ i, 1 ≤ i → i < N → get (url i) = pages i)
    (hrel : ∀ i, i + 1 < N → dget? (pages i).rel "next" = some (ghBase ++ url (i + 1)))
    (hlast : dget? (pages (N - 1)).rel "next" = none) :
    (paging_get_repositories ghBase get).repositories
      = (List.range N).flatMap (fun i => (pages i).repositories) := by
  obtain ⟨M, rfl⟩ : ∃ M, N = M + 1 := ⟨N - 1, by omega⟩
  have hrange : List.range (M + 1) = 0 :: List.range' 1 M := by
    rw [List.range_eq_range', List.range'_succ]
  by_cases h1 : M = 0
  · subst h1
    have hnext : (get_rel_next ghBase (pages 0)).1 = none := by
      exact get_rel_next_none ghBase (pages 0) (by simpa using hlast)
    simp [paging_get_repositories, h0, hnext, paging_loop_none, hrange]
  · have hnext : (get_rel_next ghBase (pages 0)).1 = some (url 1) :=
      get_rel_next_append ghBase (url 1) (pages 0) (by decide) (hrel 0 (by omega))
    have hloop := paging_loop_chain get pages url (M + 1) hget hrel hlast MAX_ITERATIONS 1
      (([] : List Nat) ++ (pages 0).repositories) [reposPath] (by omega) (by omega)
      (by simp [MAX_ITERATIONS]; omega)
    have hM : M + 1 - 1 = M := by omega
    rw [hM] at hloop
    simp only [paging_get_repositories, h0, hnext]
    rw [hloop, hrange, List.flatMap_cons]
    simp

/-- Counterexample to C5 as stated (with no bound on the chain length):
on a valid 102-page chain (each page holding exactly its index as its
single item, the last page having no next link) the enumeration returns
only the first 101 pages' items, not the full concatenation. -/
theorem C5_counterexample :
    dget? (chainPage 102 0).rel "next" = some (ghBase ++ chainPath 1) ∧
    dget? (chainPage 102 101).rel "next" = none ∧
    (paging_get_repositories ghBase (chainGet 102)).repositories = List.range 101 ∧
    (List.range 102).flatMap (fun i => (chainPage 102 i).repositories) = List.range 102 ∧
    (paging_get_repositories ghBase (chainGet 102)).repositories
      ≠ (List.range 102).flatMap (fun i => (chainPage 102 i).repositories) := by
  refine ⟨rfl, rfl, by decide, by decide, by decide⟩

/-- Witness for C5: a concrete two-page chain returns both pages' items
in order. -/
theorem C5_witness :
    (paging_get_repositories ghBase (chainGet 2)).repositories
      = (List.range 2).flatMap (fun i => (chainPage 2 i).repositories) :=
  C5_chain_concatenation (chainGet 2) (chainPage 2) chainPath 2 (by decide) (by decide)
    rfl
    (by intro i h1 h2; have h : i = 1 := by omega
        subst h; rfl)
    (by intro i hi; have h : i = 0 := by omega
        subst h; rfl)
    rfl

/-! ## C6: provider rejection short-circuits the Slack loop -/

theorem idxAt_dset (d : Dict) (i : Nat) : idxAt (dset d "cursor" (cursorOf i)) = i := by
  simp [idxAt, dget?_dset, cursorOf, strLen]

theorem slack_loop_all_ok (get : Dict → SlackResponse) (name : String)
    (hok : ∀ d, (get d).ok = true) :
    ∀ (fuel : Nat) (st : Option Nat) (h : Nat → Dict) (tr : List Dict),
      (slack_loop get name fuel st h tr).did_error = false := by
  intro fuel
  induction fuel with
  | zero => intro st h tr; simp [slack_loop]
  | succ n ih =>
    intro st h tr
    cases st with
    | none => simp [slack_loop]
    | some ref =>
      cases hf : find_name name (get (h ref)).items with
      | some cid => simp [slack_loop, hok (h ref), hf]
      | none =>
        cases hc : (get (h ref)).next_cursor with
        | none => simp [slack_loop, hok (h ref), hf, hc, ih]
        | some cur => simp [slack_loop, hok (h ref), hf, hc, ih]

theorem c6_loop (pages : Nat → SlackResponse) (name : String) (K : Nat)
    (hprev : ∀ i, i + 1 < K → (pages i).ok = true ∧ find_name name (pages i).items = none ∧
      (pages i).next_cursor = some (cursorOf (i + 1)))
    (herr : (pages (K - 1)).ok = false) :
    ∀ (fuel j ref : Nat) (h : Nat → Dict) (tr : List Dict),
      j < K → K - j ≤ fuel → idxAt (h ref) = j →
      (slack_loop (seqProvider pages) name fuel (some ref) h tr).found = none ∧
      (slack_loop (seqProvider pages) name fuel (some ref) h tr).did_error = true ∧
      (slack_loop (seqProvider pages) name fuel (some ref) h tr).trace.length
        = tr.length + (K - j) := by
  intro fuel
  induction fuel with
  | zero => intro j ref h tr h1 h2 h3; omega
  | succ n ih =>
    intro j ref h tr h1 h2 h3
    have hresp : seqProvider pages (h ref) = pages j := by rw [seqProvider, h3]
    by_cases hjK : j + 1 < K
    · obtain ⟨hok, hfind, hcur⟩ := hprev j hjK
      have hstep : slack_loop (seqProvider pages) name (n + 1) (some ref) h tr
          = slack_loop (seqProvider pages) name n (some ref)
              (hset h ref (dset (h ref) "cursor" (cursorOf (j + 1)))) (tr ++ [h ref]) := by
        simp [slack_loop, hresp, hok, hfind, hcur]
      have hidx : idxAt ((hset h ref (dset (h ref) "cursor" (cursorOf (j + 1)))) ref)
          = j + 1 := by
        simp [hset, idxAt_dset]
      obtain ⟨ha, hb, hc⟩ := ih (j + 1) ref _ (tr ++ [h ref]) hjK (by omega) hidx
      refine ⟨by rw [hstep]; exact ha, by rw [hstep]; exact hb, ?_⟩
      rw [hstep, hc]
      simp
      omega
    · have hj : j = K - 1 := by omega
      have hok : (pages j).ok = false := by rw [hj]; exact herr
      have hstep : slack_loop (seqProvider pages) name (n + 1) (some ref) h tr
          = ⟨none, true, h, tr ++ [h ref]⟩ := by
        simp [slack_loop, hresp, hok]
      rw [hstep]
      refine ⟨rfl, rfl, ?_⟩
      simp
      omega

/-- C6: if page `K` (1-based, `K` below the 100-iteration cap) of a Slack
list traversal carries `ok: false` while every earlier page is `ok` with
no match and a further cursor, `_find_matching_conversation` stops after
exactly `K` requests, returns no match, and sets `did_error = true` — an
outcome distinguishable from normal exhaustion and from reaching the
iteration cap, since any run whose pages are all `ok` (which covers both)
ends with `did_error = false`. -/
theorem C6_provider_rejection :
    (∀ (pages : Nat → SlackResponse) (K : Nat) (name : String) (h : Nat → Dict)
        (nf orig : Nat),
      0 < K → K < 100 →
      dget? (h orig) "cursor" = none →
      (∀ i, i + 1 < K → (pages i).ok = true ∧ find_name name (pages i).items = none ∧
        (pages i).next_cursor = some (cursorOf (i + 1))) →
      (pages (K - 1)).ok = false →
      (find_matching_conversation (seqProvider pages) name h nf orig).trace.length = K ∧
      (find_matching_conversation (seqProvider pages) name h nf orig).found = none ∧
      (find_matching_conversation (seqProvider pages) name h nf orig).did_error = true) ∧
    (∀ (get : Dict → SlackResponse) (name : String) (h : Nat → Dict) (nf orig : Nat),
      (∀ d, (get d).ok = true) →
      (find_matching_conversation get name h nf orig).did_error = false) := by
  constructor
  · intro pages K name h nf orig hK hcap hnocur hprev herr
    have hidx : idxAt ((hset h nf (h orig)) nf) = 0 := by
      simp [hset, idxAt, hnocur]
    obtain ⟨ha, hb, hc⟩ := c6_loop pages name K hprev herr MAX_ITERATIONS 0 nf
      (hset h nf (h orig)) [] (by omega) (by simp [MAX_ITERATIONS]; omega) hidx
    exact ⟨by simpa [find_matching_conversation] using hc,
      by simpa [find_matching_conversation] using ha,
      by simpa [find_matching_conversation] using hb⟩
  · intro get name h nf orig hok
    simpa [find_matching_conversation] using
      slack_loop_all_ok get name hok MAX_ITERATIONS (some nf) (hset h nf (h orig)) []

/-- Witness for C6: with page 1 `ok` (no match, cursor present) and page
2 error-flagged, the traversal issues exactly 2 requests and reports the
error outcome, while an all-`ok` provider reports no error. -/
theorem C6_witness :
    ((find_matching_conversation
        (seqProvider (fun i => if i = 0 then okPage [] (some (cursorOf 1)) else errPage))
        "eng" emptyHeap 1 0).trace.length = 2 ∧
      (find_matching_conversation
        (seqProvider (fun i => if i = 0 then okPage [] (some (cursorOf 1)) else errPage))
        "eng" emptyHeap 1 0).found = none ∧
      (find_matching_conversation
        (seqProvider (fun i => if i = 0 then okPage [] (some (cursorOf 1)) else errPage))
        "eng" emptyHeap 1 0).did_error = true) ∧
    (find_matching_conversation (fun _ => okPage [] none) "eng" emptyHeap 1 0).did_error
      = false := by
  constructor
  · exact C6_provider_rejection.1 (fun i => if i = 0 then okPage [] (some (cursorOf 1)) else errPage)
      2 "eng" emptyHeap 1 0 (by omega) (by omega) rfl
      (by intro i hi
          have h : i = 0 := by omega
          subst h
          exact ⟨rfl, rfl, rfl⟩)
      rfl
  · exact C6_provider_rejection.2 (fun _ => okPage [] none) "eng" emptyHeap 1 0
      (fun d => rfl)

/-! ## C7: provider error vs legitimate not-found in `get_channel_id` -/

/-- Counterexample to C7 as stated: a provider-rejected channel lookup
(`ok: false`, e.g. `rate_limited`) makes `get_channel_id` return `None` —
exactly the same value it returns when every kind exhausts without a
match, so a caller cannot branch on error versus not-found. -/
theorem C7_counterexample :
    (find_matching_conversation (fun _ => errPage) "eng" emptyHeap 1 0).did_error = true ∧
    (get_channel_id (fun _ => errPage) (fun _ => okPage [] none) (fun _ => okPage [] none)
      "eng" emptyHeap 1 0).result = none ∧
    (get_channel_id (fun _ => okPage [] none) (fun _ => okPage [] none)
      (fun _ => okPage [] none) "eng" emptyHeap 1 0).result = none ∧
    (get_channel_id (fun _ => errPage) (fun _ => okPage [] none) (fun _ => okPage [] none)
      "eng" emptyHeap 1 0).result
      = (get_channel_id (fun _ => okPage [] none) (fun _ => okPage [] none)
          (fun _ => okPage [] none) "eng" emptyHeap 1 0).result :=
  ⟨rfl, rfl, rfl, rfl⟩

/-- C7 (amended): when any kind's traversal reports the provider-rejected
outcome, `get_channel_id` aborts immediately — no later kind is queried —
and returns `None`; but this is the same value as the legitimate
"no match in any kind" result, so the two outcomes are not
distinguishable by the return value. -/
theorem C7_error_aborts_but_collides (getCh getGr getMem : Dict → SlackResponse)
    (name : String) (h : Nat → Dict) (nf orig : Nat) :
    ((find_matching_conversation getCh name h nf orig).did_error = true →
      (get_channel_id getCh getGr getMem name h nf orig).result = none ∧
      (get_channel_id getCh getGr getMem name h nf orig).grTrace = [] ∧
      (get_channel_id getCh getGr getMem name h nf orig).memTrace = []) ∧
    ((find_matching_conversation getCh name h nf orig).did_error = false →
      py_falsy (find_matching_conversation getCh name h nf orig).found = true →
      (find_matching_conversation getGr name
        (find_matching_conversation getCh name h nf orig).heap
        (find_matching_conversation getCh name h nf orig).nextFree orig).did_error = true →
      (get_channel_id getCh getGr getMem name h nf orig).result = none ∧
      (get_channel_id getCh getGr getMem name h nf orig).memTrace = []) ∧
    ((find_matching_conversation getCh name h nf orig).did_error = false →
      py_falsy (find_matching_conversation getCh name h nf orig).found = true →
      (find_matching_conversation getGr name
        (find_matching_conversation getCh name h nf orig).heap
        (find_matching_conversation getCh name h nf orig).nextFree orig).did_error = false →
      py_falsy (find_matching_conversation getGr name
        (find_matching_conversation getCh name h nf orig).heap
        (find_matching_conversation getCh name h nf orig).nextFree orig).found = true →
      (find_matching_conversation getMem name
        (find_matching_conversation getGr name
          (find_matching_conversation getCh name h nf orig).heap
          (find_matching_conversation getCh name h nf orig).nextFree orig).heap
        (find_matching_conversation getGr name
          (find_matching_conversation getCh name h nf orig).heap
          (find_matching_conversation getCh name h nf orig).nextFree orig).nextFree
        orig).did_error = true →
      (get_channel_id getCh getGr getMem name h nf orig).result = none) ∧
    ((find_matching_conversation getCh name h nf orig).did_error = false →
      py_falsy (find_matching_conversation getCh name h nf orig).found = true →
      (find_matching_conversation getGr name
        (find_matching_conversation getCh name h nf orig).heap
        (find_matching_conversation getCh name h nf orig).nextFree orig).did_error = false →
      py_falsy (find_matching_conversation getGr name
        (find_matching_conversation getCh name h nf orig).heap
        (find_matching_conversation getCh name h nf orig).nextFree orig).found = true →
      (find_matching_conversation getMem name
        (find_matching_conversation getGr name
          (find_matching_conversation getCh name h nf orig).heap
          (find_matching_conversation getCh name h nf orig).nextFree orig).heap
        (find_matching_conversation getGr name
          (find_matching_conversation getCh name h nf orig).heap
          (find_matching_conversation getCh name h nf orig).nextFree orig).nextFree
        orig).did_error = false →
      py_falsy (find_matching_conversation getMem name
        (find_matching_conversation getGr name
          (find_matching_conversation getCh name h nf orig).heap
          (find_matching_conversation getCh name h nf orig).nextFree orig).heap
        (find_matching_conversation getGr name
          (find_matching_conversation getCh name h nf orig).heap
          (find_matching_conversation getCh name h nf orig).nextFree orig).nextFree
        orig).found = true →
      (get_channel_id getCh getGr getMem name h nf orig).result = none) := by
  refine ⟨fun h1 => ?_, fun h1 h2 h3 => ?_, fun h1 h2 h3 h4 h5 => ?_,
    fun h1 h2 h3 h4 h5 h6 => ?_⟩
  · simp [get_channel_id, h1]
  · simp [get_channel_id, h1, h2, h3]
  · simp [get_channel_id, h1, h2, h3, h4, h5]
  · simp [get_channel_id, h1, h2, h3, h4, h5, h6]

/-- Witness for C7: a rejected channel listing aborts the concrete lookup
with `None` and no group/member requests. -/
theorem C7_witness :
    (get_channel_id (fun _ => errPage) (fun _ => okPage [⟨"eng", "G1"⟩] none)
      (fun _ => okPage [] none) "eng" emptyHeap 1 0).result = none ∧
    (get_channel_id (fun _ => errPage) (fun _ => okPage [⟨"eng", "G1"⟩] none)
      (fun _ => okPage [] none) "eng" emptyHeap 1 0).grTrace = [] ∧
    (get_channel_id (fun _ => errPage) (fun _ => okPage [⟨"eng", "G1"⟩] none)
      (fun _ => okPage [] none) "eng" emptyHeap 1 0).memTrace = [] :=
  (C7_error_aborts_but_collides (fun _ => errPage) (fun _ => okPage [⟨"eng", "G1"⟩] none)
    (fun _ => okPage [] none) "eng" emptyHeap 1 0).1 rfl

/-! ## C8: fixed kind order, exact matching, first match wins -/

/-- C8: `get_channel_id` tries Channel, then Group, then Member; each
kind is scanned for the first item whose `name` equals the requested name
exactly (`find_name` is `List.find?` on string equality); the first match
returns immediately with its kind's marker and no later kind is queried,
and a provider-rejected outcome in an earlier kind also prevents any
later kind from being queried. -/
theorem C8_kind_order_first_match (getCh getGr getMem : Dict → SlackResponse)
    (name : String) (h : Nat → Dict) (nf orig : Nat) :
    ((find_matching_conversation getCh name h nf orig).did_error = false →
      py_falsy (find_matching_conversation getCh name h nf orig).found = false →
      (get_channel_id getCh getGr getMem name h nf orig).result
        = some (CHANNEL_MARK, (find_matching_conversation getCh name h nf orig).found.getD "") ∧
      (get_channel_id getCh getGr getMem name h nf orig).grTrace = [] ∧
      (get_channel_id getCh getGr getMem name h nf orig).memTrace = []) ∧
    ((find_matching_conversation getCh name h nf orig).did_error = false →
      py_falsy (find_matching_conversation getCh name h nf orig).found = true →
      (find_matching_conversation getGr name
        (find_matching_conversation getCh name h nf orig).heap
        (find_matching_conversation getCh name h nf orig).nextFree orig).did_error = false →
      py_falsy (find_matching_conversation getGr name
        (find_matching_conversation getCh name h nf orig).heap
        (find_matching_conversation getCh name h nf orig).nextFree orig).found = false →
      (get_channel_id getCh getGr getMem name h nf orig).result
        = some (CHANNEL_MARK,
            (find_matching_conversation getGr name
              (find_matching_conversation getCh name h nf orig).heap
              (find_matching_conversation getCh name h nf orig).nextFree orig).found.getD "") ∧
      (get_channel_id getCh getGr getMem name h nf orig).memTrace = []) ∧
    ((find_matching_conversation getCh name h nf orig).did_error = false →
      py_falsy (find_matching_conversation getCh name h nf orig).found = true →
      (find_matching_conversation getGr name
        (find_matching_conversation getCh name h nf orig).heap
        (find_matching_conversation getCh name h nf orig).nextFree orig).did_error = false →
      py_falsy (find_matching_conversation getGr name
        (find_matching_conversation getCh name h nf orig).heap
        (find_matching_conversation getCh name h nf orig).nextFree orig).found = true →
      (find_matching_conversation getMem name
        (find_matching_conversation getGr name
          (find_matching_conversation getCh name h nf orig).heap
          (find_matching_conversation getCh name h nf orig).nextFree orig).heap
        (find_matching_conversation getGr name
          (find_matching_conversation getCh name h nf orig).heap
          (find_matching_conversation getCh name h nf orig).nextFree orig).nextFree
        orig).did_error = false →
      py_falsy (find_matching_conversation getMem name
        (find_matching_conversation getGr name
          (find_matching_conversation getCh name h nf orig).heap
          (find_matching_conversation getCh name h nf orig).nextFree orig).heap
        (find_matching_conversation getGr name
          (find_matching_conversation getCh name h nf orig).heap
          (find_matching_conversation getCh name h nf orig).nextFree orig).nextFree
        orig).found = false →
      (get_channel_id getCh getGr getMem name h nf orig).result
        = some (MEMBER_MARK,
            (find_matching_conversation getMem name
              (find_matching_conversation getGr name
                (find_matching_conversation getCh name h nf orig).heap
                (find_matching_conversation getCh name h nf orig).nextFree orig).heap
              (find_matching_conversation getGr name
                (find_matching_conversation getCh name h nf orig).heap
                (find_matching_conversation getCh name h nf orig).nextFree orig).nextFree
              orig).found.getD "")) ∧
    ((find_matching_conversation getCh name h nf orig).did_error = true →
      (get_channel_id getCh getGr getMem name h nf orig).grTrace = [] ∧
      (get_channel_id getCh getGr getMem name h nf orig).memTrace = []) ∧
    (∀ (items : List SlackItem) (nm : String),
      find_name nm items = (items.find? (fun c => c.name == nm)).map (fun c => c.id)) := by
  refine ⟨fun h1 h2 => ?_, fun h1 h2 h3 h4 => ?_, fun h1 h2 h3 h4 h5 h6 => ?_,
    fun h1 => ?_, fun items nm => ?_⟩
  · simp [get_channel_id, h1, h2]
  · simp [get_channel_id, h1, h2, h3, h4]
  · simp [get_channel_id, h1, h2, h3, h4, h5, h6]
  · simp [get_channel_id, h1]
  · induction items with
    | nil => simp [find_name]
    | cons c rest ih =>
      by_cases hc : c.name = nm
      · simp [find_name, List.find?, hc]
      · simp only [find_name, List.find?, if_neg hc]
        rw [show (c.name == nm) = false by simpa using hc]
        simpa using ih

/-- Witness for C8: a concrete channel-kind match returns the
`#`-marked id with no group or member requests. -/
theorem C8_witness :
    (get_channel_id (fun _ => okPage [⟨"eng", "C123"⟩] none)
      (fun _ => okPage [⟨"eng", "G9"⟩] none) (fun _ => okPage [] none)
      "eng" emptyHeap 1 0).result = some (CHANNEL_MARK, "C123") ∧
    (get_channel_id (fun _ => okPage [⟨"eng", "C123"⟩] none)
      (fun _ => okPage [⟨"eng", "G9"⟩] none) (fun _ => okPage [] none)
      "eng" emptyHeap 1 0).grTrace = [] ∧
    (get_channel_id (fun _ => okPage [⟨"eng", "C123"⟩] none)
      (fun _ => okPage [⟨"eng", "G9"⟩] none) (fun _ => okPage [] none)
      "eng" emptyHeap 1 0).memTrace = [] :=
  (C8_kind_order_first_match (fun _ => okPage [⟨"eng", "C123"⟩] none)
    (fun _ => okPage [⟨"eng", "G9"⟩] none) (fun _ => okPage [] none)
    "eng" emptyHeap 1 0).1 rfl rfl

/-! ## C9: the caller's params dict is never mutated -/

theorem slack_loop_heap_frame (get : Dict → SlackResponse) (name : String) :
    ∀ (fuel : Nat) (st : Option Nat) (h : Nat → Dict) (tr : List Dict) (q : Nat),
      (∀ r, st = some r → r ≠ q) →
      (slack_loop get name fuel st h tr).heap q = h q := by
  intro fuel
  induction fuel with
  | zero => intro st h tr q hst; simp [slack_loop]
  | succ n ih =>
    intro st h tr q hst
    cases st with
    | none => simp [slack_loop]
    | some ref =>
      have href : ref ≠ q := hst ref rfl
      cases hok : (get (h ref)).ok with
      | false => simp [slack_loop, hok]
      | true =>
        cases hf : find_name name (get (h ref)).items with
        | some cid => simp [slack_loop, hok, hf]
        | none =>
          cases hc : (get (h ref)).next_cursor with
          | none =>
            have := ih none h (tr ++ [h ref]) q (by intro r hr; cases hr)
            simpa [slack_loop, hok, hf, hc] using this
          | some cur =>
            have := ih (some ref) (hset h ref (dset (h ref) "cursor" cur))
              (tr ++ [h ref]) q (by intro r hr; cases hr; exact href)
            have hcell : (hset h ref (dset (h ref) "cursor" cur)) q = h q := by
              simp only [hset]
              rw [if_neg (fun hq => href hq.symm)]
            rw [← hcell]
            simpa [slack_loop, hok, hf, hc] using this

theorem fmc_heap_frame (get : Dict → SlackResponse) (name : String) (h : Nat → Dict)
    (nf orig : Nat) (hne : orig ≠ nf) :
    (find_matching_conversation get name h nf orig).heap orig = h orig := by
  have hloop := slack_loop_heap_frame get name MAX_ITERATIONS (some nf)
    (hset h nf (h orig)) [] orig
    (by intro r hr; cases hr; exact fun hq => hne hq.symm)
  have hcell : (hset h nf (h orig)) orig = h orig := by
    simp [hset, hne]
  simpa [find_matching_conversation, hcell] using hloop

theorem fmc_nextFree (get : Dict → SlackResponse) (name : String) (h : Nat → Dict)
    (nf orig : Nat) :
    (find_matching_conversation get name h nf orig).nextFree = nf + 1 := rfl

/-- C9: `_find_matching_conversation` never mutates the caller's
`original_params` dict — the deep copy is allocated at a fresh reference
and cursor updates hit only that copy — so `get_channel_id` can pass the
same params value unchanged to the channel, group and member lookups. -/
theorem C9_original_params_preserved :
    (∀ (get : Dict → SlackResponse) (name : String) (h : Nat → Dict) (nf orig : Nat),
      orig < nf →
      (find_matching_conversation get name h nf orig).heap orig = h orig) ∧
    (∀ (getCh getGr getMem : Dict → SlackResponse) (name : String) (h : Nat → Dict)
        (nf orig : Nat),
      orig < nf →
      (get_channel_id getCh getGr getMem name h nf orig).heap orig = h orig) := by
  constructor
  · intro get name h nf orig hlt
    exact fmc_heap_frame get name h nf orig (by omega)
  · intro getCh getGr getMem name h nf orig hlt
    have e1 : (find_matching_conversation getCh name h nf orig).heap orig = h orig :=
      fmc_heap_frame getCh name h nf orig (by omega)
    have e2' : (find_matching_conversation getGr name
        (find_matching_conversation getCh name h nf orig).heap
        (find_matching_conversation getCh name h nf orig).nextFree orig).heap orig
          = h orig := by
      rw [fmc_heap_frame getGr name _ _ orig (by rw [fmc_nextFree]; omega), e1]
    have e3 : (find_matching_conversation getMem name
        (find_matching_conversation getGr name
          (find_matching_conversation getCh name h nf orig).heap
          (find_matching_conversation getCh name h nf orig).nextFree orig).heap
        (find_matching_conversation getGr name
          (find_matching_conversation getCh name h nf orig).heap
          (find_matching_conversation getCh name h nf orig).nextFree orig).nextFree
        orig).heap orig = h orig := by
      rw [fmc_heap_frame getMem name _ _ orig
        (by rw [fmc_nextFree, fmc_nextFree]; omega), e2']
    by_cases h1 : (find_matching_conversation getCh name h nf orig).did_error = true
    · simpa [get_channel_id, h1] using e1
    · have h1' : (find_matching_conversation getCh name h nf orig).did_error = false := by
        simpa using h1
      by_cases h2 : py_falsy (find_matching_conversation getCh name h nf orig).found = false
      · simpa [get_channel_id, h1', h2] using e1
      · have h2' : py_falsy (find_matching_conversation getCh name h nf orig).found = true := by
          simpa using h2
        by_cases h3 : (find_matching_conversation getGr name
            (find_matching_conversation getCh name h nf orig).heap
            (find_matching_conversation getCh name h nf orig).nextFree orig).did_error = true
        · simpa [get_channel_id, h1', h2', h3] using e2'
        · have h3' : (find_matching_conversation getGr name
              (find_matching_conversation getCh name h nf orig).heap
              (find_matching_conversation getCh name h nf orig).nextFree orig).did_error
                = false := by simpa using h3
          by_cases h4 : py_falsy (find_matching_conversation getGr name
              (find_matching_conversation getCh name h nf orig).heap
              (find_matching_conversation getCh name h nf orig).nextFree orig).found = false
          · simpa [get_channel_id, h1', h2', h3', h4] using e2'
          · have h4' : py_falsy (find_matching_conversation getGr name
                (find_matching_conversation getCh name h nf orig).heap
                (find_matching_conversation getCh name h nf orig).nextFree orig).found
                  = true := by simpa using h4
            by_cases h5 : (find_matching_conversation getMem name
                (find_matching_conversation getGr name
                  (find_matching_conversation getCh name h nf orig).heap
                  (find_matching_conversation getCh name h nf orig).nextFree orig).heap
                (find_matching_conversation getGr name
                  (find_matching_conversation getCh name h nf orig).heap
                  (find_matching_conversation getCh name h nf orig).nextFree orig).nextFree
                orig).did_error = true
            · simpa [get_channel_id, h1', h2', h3', h4', h5] using e3
            · have h5' : (find_matching_conversation getMem name
                  (find_matching_conversation getGr name
                    (find_matching_conversation getCh name h nf orig).heap
                    (find_matching_conversation getCh name h nf orig).nextFree orig).heap
                  (find_matching_conversation getGr name
                    (find_matching_conversation getCh name h nf orig).heap
                    (find_matching_conversation getCh name h nf orig).nextFree orig).nextFree
                  orig).did_error = false := by simpa using h5
              by_cases h6 : py_falsy (find_matching_conversation getMem name
                  (find_matching_conversation getGr name
                    (find_matching_conversation getCh name h nf orig).heap
                    (find_matching_conversation getCh name h nf orig).nextFree orig).heap
                  (find_matching_conversation getGr name
                    (find_matching_conversation getCh name h nf orig).heap
                    (find_matching_conversation getCh name h nf orig).nextFree orig).nextFree
                  orig).found = false
              · simpa [get_channel_id, h1', h2', h3', h4', h5', h6] using e3
              · have h6' : py_falsy (find_matching_conversation getMem name
                    (find_matching_conversation getGr name
                      (find_matching_conversation getCh name h nf orig).heap
                      (find_matching_conversation getCh name h nf orig).nextFree orig).heap
                    (find_matching_conversation getGr name
                      (find_matching_conversation getCh name h nf orig).heap
                      (find_matching_conversation getCh name h nf orig).nextFree orig).nextFree
                    orig).found = true := by simpa using h6
                simpa [get_channel_id, h1', h2', h3', h4', h5', h6'] using e3

/-- Witness for C9: a concrete cursor-following run leaves the caller's
params cell untouched. -/
theorem C9_witness :
    (find_matching_conversation (fun _ => okPage [] (some "c")) "eng"
      emptyHeap 1 0).heap 0 = emptyHeap 0 :=
  C9_original_params_preserved.1 (fun _ => okPage [] (some "c")) "eng" emptyHeap 1 0
    (by omega)

/-! ## Datetime lemmas (for C2, C3 and C10) -/

theorem digCh_isDig (d : Nat) (h : d ≤ 9) : isDig (digCh d) = true := by
  interval_cases d <;> decide

theorem digCh_dval (d : Nat) (h : d ≤ 9) : dval (digCh d) = d := by
  interval_cases d <;> decide

theorem dval_le_of_isDig (c : Char) (h : isDig c = true) : dval c ≤ 9 := by
  simp [isDig] at h
  simp [dval]
  omega

theorem parse4d_pad4 (n : Nat) (rest : List Char) (hn : n ≤ 9999) :
    parse4d (pad4 n ++ rest) = some (n, rest) := by
  have h1 : n / 1000 ≤ 9 := by omega
  have h2 : n / 100 % 10 ≤ 9 := by omega
  have h3 : n / 10 % 10 ≤ 9 := by omega
  have h4 : n % 10 ≤ 9 := by omega
  simp only [pad4, List.cons_append, List.nil_append, parse4d,
    digCh_isDig _ h1, digCh_isDig _ h2, digCh_isDig _ h3, digCh_isDig _ h4,
    digCh_dval _ h1, digCh_dval _ h2, digCh_dval _ h3, digCh_dval _ h4,
    Bool.and_self, if_true]
  congr 1
  rw [Prod.mk.injEq]
  constructor
  · omega
  · rfl

theorem parse2d_pad2 (n : Nat) (rest : List Char) (hn : n ≤ 99) :
    parse2d (pad2 n ++ rest) = some (n, rest) := by
  have h1 : n / 10 ≤ 9 := by omega
  have h2 : n % 10 ≤ 9 := by omega
  simp only [pad2, List.cons_append, List.nil_append, parse2d,
    digCh_isDig _ h1, digCh_isDig _ h2, digCh_dval _ h1, digCh_dval _ h2,
    Bool.and_self, if_true]
  congr 1
  rw [Prod.mk.injEq]
  constructor
  · omega
  · rfl

theorem expect_cons (c : Char) (rest : List Char) : expect c (c :: rest) = some rest := by
  simp [expect]

theorem parse4d_le (cs : List Char) (y : Nat) (rest : List Char)
    (h : parse4d cs = some (y, rest)) : y ≤ 9999 := by
  match cs with
  | [] => exact absurd h (by simp [parse4d])
  | [c1] => exact absurd h (by simp [parse4d])
  | [c1, c2] => exact absurd h (by simp [parse4d])
  | [c1, c2, c3] => exact absurd h (by simp [parse4d])
  | c1 :: c2 :: c3 :: c4 :: rest' =>
    rw [parse4d] at h
    by_cases hd : (isDig c1 && isDig c2 && isDig c3 && isDig c4) = true
    · rw [if_pos hd] at h
      simp only [Bool.and_eq_true] at hd
      obtain ⟨⟨⟨d1, d2⟩, d3⟩, d4⟩ := hd
      have e1 := dval_le_of_isDig c1 d1
      have e2 := dval_le_of_isDig c2 d2
      have e3 := dval_le_of_isDig c3 d3
      have e4 := dval_le_of_isDig c4 d4
      simp only [Option.some.injEq, Prod.mk.injEq] at h
      omega
    · rw [if_neg hd] at h
      exact absurd h (by simp)

theorem strptime_core_valid (cs : List Char) (dt : PyDatetime) (rest : List Char)
    (h : strptime_core cs = some (dt, rest)) : ValidDt dt := by
  unfold strptime_core at h
  split at h
  · exact absurd h (by simp)
  next y cs1 hp4 =>
    have hy9 : y ≤ 9999 := parse4d_le cs y cs1 hp4
    split at h
    · exact absurd h (by simp)
    next hy =>
      split at h
      · exact absurd h (by simp)
      next cs2 he1 =>
        split at h
        · exact absurd h (by simp)
        next m cs3 hp2 =>
          split at h
          · exact absurd h (by simp)
          next hm =>
            split at h
            · exact absurd h (by simp)
            next cs4 he2 =>
              split at h
              · exact absurd h (by simp)
              next d cs5 hp3 =>
                split at h
                · exact absurd h (by simp)
                next hd =>
                  split at h
                  · exact absurd h (by simp)
                  next cs6 he3 =>
                    split at h
                    · exact absurd h (by simp)
                    next hh cs7 hp5 =>
                      split at h
                      · exact absurd h (by simp)
                      next hhh =>
                        split at h
                        · exact absurd h (by simp)
                        next cs8 he4 =>
                          split at h
                          · exact absurd h (by simp)
                          next mi cs9 hp6 =>
                            split at h
                            · exact absurd h (by simp)
                            next hmi =>
                              split at h
                              · exact absurd h (by simp)
                              next cs10 he5 =>
                                split at h
                                · exact absurd h (by simp)
                                next ss cs11 hp7 =>
                                  split at h
                                  · exact absurd h (by simp)
                                  next hss =>
                                    simp only [Option.some.injEq, Prod.mk.injEq] at h
                                    obtain ⟨hdt, -⟩ := h
                                    subst hdt
                                    push_neg at hm hd
                                    exact ⟨show 1 ≤ y by omega, show y ≤ 9999 by omega,
                                      show 1 ≤ m by omega, show m ≤ 12 by omega,
                                      show 1 ≤ d by omega,
                                      show d ≤ days_in_month y m by omega,
                                      show hh ≤ 23 by omega, show mi ≤ 59 by omega,
                                      show ss ≤ 59 by omega, rfl⟩
theorem days_in_month_le (y m : Nat) : days_in_month y m ≤ 31 := by
  unfold days_in_month
  split_ifs <;> omega

theorem strptime_core_isoformat (dt : PyDatetime) (hv : ValidDt dt) :
    strptime_core (isoformat dt).data = some (dt, []) := by
  obtain ⟨y, m, d, hh, mi, ss, us⟩ := dt
  obtain ⟨h1, h2, h3, h4, h5, h6, h7, h8, h9, h10⟩ := hv
  simp only at h1 h2 h3 h4 h5 h6 h7 h8 h9 h10
  subst h10
  have h6' : d ≤ 31 := le_trans h6 (days_in_month_le y m)
  have P4 : ∀ r, parse4d (pad4 y ++ r) = some (y, r) := fun r => parse4d_pad4 y r (by omega)
  have P2m : ∀ r, parse2d (pad2 m ++ r) = some (m, r) := fun r => parse2d_pad2 m r (by omega)
  have P2d : ∀ r, parse2d (pad2 d ++ r) = some (d, r) := fun r => parse2d_pad2 d r (by omega)
  have P2h : ∀ r, parse2d (pad2 hh ++ r) = some (hh, r) := fun r => parse2d_pad2 hh r (by omega)
  have P2mi : ∀ r, parse2d (pad2 mi ++ r) = some (mi, r) := fun r => parse2d_pad2 mi r (by omega)
  have P2ss : ∀ r, parse2d (pad2 ss ++ r) = some (ss, r) := fun r => parse2d_pad2 ss r (by omega)
  have g1 : ¬ y < 1 := by omega
  have g2 : ¬ (m < 1 ∨ 12 < m) := by omega
  have g3 : ¬ (d < 1 ∨ days_in_month y m < d) := by omega
  have g4 : ¬ 23 < hh := by omega
  have g5 : ¬ 59 < mi := by omega
  have g6 : ¬ 59 < ss := by omega
  show strptime_core (pad4 y ++ ('-' :: (pad2 m ++ ('-' :: (pad2 d ++ ('T' :: (pad2 hh ++
    (':' :: (pad2 mi ++ (':' :: (pad2 ss ++ [])))))))))))
      = some (⟨y, m, d, hh, mi, ss, 0⟩, [])
  simp only [strptime_core, P4, expect_cons, P2m, P2d, P2h, P2mi, P2ss,
    if_neg g1, if_neg g2, if_neg g3, if_neg g4, if_neg g5, if_neg g6]


theorem natList_lt_cons (x y : Nat) (xs ys : List Nat) :
    (x :: xs) < (y :: ys) ↔ x < y ∨ (x = y ∧ xs < ys) := by
  constructor
  · intro h
    cases h with
    | rel h => exact Or.inl h
    | cons h => exact Or.inr ⟨rfl, h⟩
  · intro h
    rcases h with h | ⟨rfl, h⟩
    · exact List.Lex.rel h
    · exact List.Lex.cons h

theorem natList_nil_lt : ¬ (([] : List Nat) < []) := fun h => nomatch h

theorem dtLt_iff (a b : PyDatetime) : dt_lt a b = true ↔ dtFields a < dtFields b := by
  obtain ⟨y1, m1, d1, h1, mi1, s1, u1⟩ := a
  obtain ⟨y2, m2, d2, h2, mi2, s2, u2⟩ := b
  simp only [dt_lt, dtFields, natList_lt_cons, eq_false natList_nil_lt]
  split_ifs <;> simp_all

/-! ## C2: the refresh decision of `get_token` -/

/-- Counterexample to C2 as stated: at the boundary instant
`now == expiresAt` the code compares `expires_at < utcnow()` (strict), so
no refresh occurs — the cached token is returned with zero minting calls
and no save, while the claim demands a refresh there. -/
theorem C2_counterexample :
    strptime_plain "2020-01-01T00:00:00" = some ⟨2020, 1, 1, 0, 0, 0, 0⟩ ∧
    get_token ⟨some "tok", some "2020-01-01T00:00:00"⟩ ⟨2020, 1, 1, 0, 0, 0, 0⟩ false
        ("new", "2020-06-01T00:00:00Z")
      = .ok ⟨"tok", ⟨some "tok", some "2020-01-01T00:00:00"⟩, 0, false⟩ :=
  ⟨rfl, rfl⟩

/-- C2 (amended): on every `get_token` call with a parseable stored
expiry field and a well-formed minting response: a falsy stored token
forces a refresh unconditionally (the comparison is short-circuited
away); with a present token and a parsed expiry `e`, the refresh
decision equals `dt_lt e now OR forceRefresh` — strict, so at the
boundary instant `now == expiresAt` (with no force) no refresh occurs;
with a present token and an absent expiry the comparison raises
`TypeError` and nothing is minted. When the decision holds, exactly one
minting call is made, the new (value, isoformat expiry) pair is
persisted via the save hook and the new value is returned; when it does
not hold, the cached value is returned unchanged with no minting call
and no save. The datetime order is grounded as the lexicographic order
on the field tuple. -/
theorem C2_refresh_decision :
    (∀ (a b : PyDatetime), dt_lt a b = true ↔ dtFields a < dtFields b) ∧
    (∀ (metadata : TokenMetadata) (now : PyDatetime) (force_refresh : Bool)
        (mint : String × String) (expires_at : Option PyDatetime) (dtM : PyDatetime),
      parse_expires metadata.expires_at = .ok expires_at →
      strptime_z mint.2 = some dtM →
      (py_falsy metadata.access_token = true →
        get_token metadata now force_refresh mint
          = .ok ⟨mint.1, ⟨some mint.1, some (isoformat dtM)⟩, 1, true⟩) ∧
      (∀ e, py_falsy metadata.access_token = false → expires_at = some e →
        ((dt_lt e now || force_refresh) = true →
          get_token metadata now force_refresh mint
            = .ok ⟨mint.1, ⟨some mint.1, some (isoformat dtM)⟩, 1, true⟩) ∧
        ((dt_lt e now || force_refresh) = false →
          get_token metadata now force_refresh mint
            = .ok ⟨metadata.access_token.getD "", metadata, 0, false⟩)) ∧
      (py_falsy metadata.access_token = false → expires_at = none →
        get_token metadata now force_refresh mint = .error "TypeError")) ∧
    (∀ (metadata : TokenMetadata) (mint : String × String) (e : PyDatetime)
        (dtM : PyDatetime),
      parse_expires metadata.expires_at = .ok (some e) →
      strptime_z mint.2 = some dtM →
      py_falsy metadata.access_token = false →
      get_token metadata e false mint
        = .ok ⟨metadata.access_token.getD "", metadata, 0, false⟩) := by
  have hboundary : ∀ e : PyDatetime, dt_lt e e = false := by
    intro e
    simp [dt_lt]
  refine ⟨dtLt_iff, fun metadata now force_refresh mint expires_at dtM hp hm =>
    ⟨fun hfal => ?_, fun e hfal hsome => ⟨fun hc => ?_, fun hc => ?_⟩, fun hfal hnone => ?_⟩,
    fun metadata mint e dtM hp hm hfal => ?_⟩
  · simp [get_token, hp, needs_refresh, hfal, hm]
  · subst hsome
    simp [get_token, hp, needs_refresh, hfal, py_lt_datetime, hc, hm]
  · subst hsome
    simp [get_token, hp, needs_refresh, hfal, py_lt_datetime, hc]
  · subst hnone
    simp [get_token, hp, needs_refresh, hfal, py_lt_datetime]
  · simp [get_token, hp, needs_refresh, hfal, py_lt_datetime, hboundary e]

/-- Witness for C2: a concrete expired stored token is refreshed in one
minting call, and the parsed mint expiry is persisted in isoformat. -/
theorem C2_witness :
    get_token ⟨some "tok", some "2011-05-04T01:02:03"⟩ ⟨2020, 1, 1, 0, 0, 0, 0⟩ false
        ("t2", "2012-06-07T08:09:10Z")
      = .ok ⟨"t2", ⟨some "t2", some "2012-06-07T08:09:10"⟩, 1, true⟩ := by
  rw [(((C2_refresh_decision.2.1 ⟨some "tok", some "2011-05-04T01:02:03"⟩
      ⟨2020, 1, 1, 0, 0, 0, 0⟩ false ("t2", "2012-06-07T08:09:10Z")
      (some ⟨2011, 5, 4, 1, 2, 3, 0⟩) ⟨2012, 6, 7, 8, 9, 10, 0⟩ rfl rfl).2.1
      ⟨2011, 5, 4, 1, 2, 3, 0⟩ rfl rfl).1 rfl)]
  rfl

/-! ## C3: absent expiry actually raises on the freshness comparison -/

/-- C3 (the code contradicts the claim): with a present (truthy) stored
token and an absent `expires_at`, the freshness decision evaluates
`None < datetime.utcnow()`, which in Python 2.7 raises an uncaught
`TypeError` (datetime comparison refuses a non-datetime comparand), so
`get_token` raises and performs no minting call — regardless of the
current time and of `force_refresh`. The spec's stated contract (absent
expiry means always-expired, must not raise) is the documented intent;
the code is the slip. -/
theorem C3_absent_expiry_raises (metadata : TokenMetadata) (now : PyDatetime)
    (force_refresh : Bool) (mint : String × String) (t : String)
    (htok : metadata.access_token = some t) (hne : t ≠ "")
    (hexp : metadata.expires_at = none) :
    get_token metadata now force_refresh mint = .error "TypeError" := by
  have hfal : py_falsy metadata.access_token = false := by
    rw [htok]
    simpa [py_falsy] using hne
  simp [get_token, parse_expires, hexp, needs_refresh, hfal, py_lt_datetime]

/-- Witness for C3: a concrete present-token, absent-expiry state makes
`get_token` raise `TypeError` instead of minting. -/
theorem C3_witness :
    get_token ⟨some "tok", none⟩ ⟨2024, 1, 1, 0, 0, 0, 123⟩ false
        ("t2", "2011-05-04T01:02:03Z")
      = .error "TypeError" :=
  C3_absent_expiry_raises ⟨some "tok", none⟩ ⟨2024, 1, 1, 0, 0, 0, 123⟩ false
    ("t2", "2011-05-04T01:02:03Z") "tok" rfl (by decide) rfl

/-! ## C10: persisted expiry round-trips through the two formats -/

/-- C10: any minting-response expiry accepted by the
`'%Y-%m-%dT%H:%M:%SZ'` parser yields a datetime whose `isoformat` string
is parsed back by the read path's `'%Y-%m-%dT%H:%M:%S'` format to the
same timestamp, without raising. -/
theorem C10_expiry_roundtrip (s : String) (dt : PyDatetime)
    (h : strptime_z s = some dt) : strptime_plain (isoformat dt) = some dt := by
  rw [strptime_z] at h
  cases hc : strptime_core s.data with
  | none => rw [hc] at h; exact absurd h (by simp)
  | some p =>
    obtain ⟨dt1, rest⟩ := p
    rw [hc] at h
    by_cases hr : rest = ['Z']
    · simp only [if_pos hr, Option.some.injEq] at h
      subst h
      subst hr
      have hv : ValidDt dt1 := strptime_core_valid s.data dt1 ['Z'] hc
      rw [strptime_plain, strptime_core_isoformat dt1 hv]
      simp
    · simp only [if_neg hr] at h
      exact absurd h (by simp)

/-- Witness for C10: a concrete `Z`-suffixed expiry parses, and its
isoformat re-parses to the same datetime under the plain format. -/
theorem C10_witness :
    strptime_z "2011-05-04T01:02:03Z" = some ⟨2011, 5, 4, 1, 2, 3, 0⟩ ∧
    strptime_plain (isoformat ⟨2011, 5, 4, 1, 2, 3, 0⟩) = some ⟨2011, 5, 4, 1, 2, 3, 0⟩ :=
  ⟨rfl, C10_expiry_roundtrip "2011-05-04T01:02:03Z" ⟨2011, 5, 4, 1, 2, 3, 0⟩ rfl⟩

end Sentry
